import Mathlib

/-
Verification of the agentic DevOps platform's MCP server core:
the bearer-token auth middleware (src/middleware/auth.js) and the agent
route handlers (the Express router with code-review, test-writer,
build-predictor, docker-handler, deploy, monitor, and vulnerability-scan
endpoints).

Modelling conventions:
- JavaScript strings are Lean `String`s; the JS string methods used by the
  source (`includes`, `startsWith`, `substring`, `trim`, `toLowerCase`,
  `split`, first-occurrence `replace`) are given explicit structural
  definitions on the underlying character lists so that every definition
  is executable and kernel-reducible.
- JS numbers are modelled as exact rationals (`ℚ`); no float rounding is
  modelled.
- Optional / possibly-absent request fields are `Option` values; the JS
  truthiness tests (`!x`) on them are explicit `truthy*` helpers.
- The external collaborators (the LLM service, the DevOps service, the
  `jsonwebtoken` verifier, and `JSON.parse`) are opaque calls with
  documented contracts; each handler is parameterised over a record of
  these calls, where a rejected promise / thrown exception is modelled as
  `Except.error` carrying the error message.
- Each handler additionally returns the ordered trace of collaborator
  invocations it performed, so that "stage X never runs" properties are
  statable.
-/

/-! ## String helpers (JS string methods on character lists) -/

/-- JS `haystack.includes(needle)` at the character-list level. -/
def listIsInfixOf (pat : List Char) : List Char → Bool
  | [] => pat.isEmpty
  | c :: rest => pat.isPrefixOf (c :: rest) || listIsInfixOf pat rest

/-- JS `s.includes(pat)`. -/
def strContains (s pat : String) : Bool := listIsInfixOf pat.data s.data

/-- JS `s.startsWith(pre)`. -/
def strStartsWith (s pre : String) : Bool := pre.data.isPrefixOf s.data

/-- JS regex `/\.(ext)$/` anchor test: does `s` end with `suf`. -/
def strEndsWith (s suf : String) : Bool := suf.data.isSuffixOf s.data

/-- JS `s.substring(n)` (ASCII prefixes make code units = characters here). -/
def strDrop (s : String) (n : Nat) : String := ⟨s.data.drop n⟩

/-- JS `s.substring(0, n)`. -/
def strTake (s : String) (n : Nat) : String := ⟨s.data.take n⟩

/-- JS `s.trim()`: strip whitespace from both ends. -/
def strTrim (s : String) : String :=
  ⟨((s.data.dropWhile Char.isWhitespace).reverse.dropWhile Char.isWhitespace).reverse⟩

/-- JS `s.toLowerCase()` (per-character lowering; the source only scans for
ASCII keywords). -/
def strToLower (s : String) : String := ⟨s.data.map Char.toLower⟩

/-- Split on every occurrence of `sep` (leftmost, non-overlapping), with fuel
for structural termination; fuel is instantiated with the list length, which
each step strictly consumes. -/
def splitChars (sep : List Char) : Nat → List Char → List Char → List (List Char)
  | _, [], acc => [acc.reverse]
  | 0, l, acc => [acc.reverse ++ l]
  | fuel + 1, c :: cs, acc =>
    if sep.isPrefixOf (c :: cs) then
      acc.reverse :: splitChars sep fuel (List.drop (sep.length - 1) cs) []
    else
      splitChars sep fuel cs (c :: acc)

/-- JS `s.split(sep)` for a non-empty separator (the source always splits on
`"."`, `"/"` or `"\n"`). -/
def strSplitOn (s sep : String) : List String :=
  if sep.data.isEmpty then [s]
  else (splitChars sep.data s.data.length s.data []).map String.mk

/-- Join character lists with a separator (inverse of `splitChars`). -/
def joinSep (sep : List Char) : List (List Char) → List Char
  | [] => []
  | x :: rest =>
    match rest with
    | [] => x
    | _ => x ++ sep ++ joinSep sep rest

/-- JS `s.replace(pat, "")` for a plain-string pattern: remove the first
occurrence of `pat`, leave `s` unchanged when `pat` does not occur. -/
def replaceFirst (s pat : String) : String :=
  match strSplitOn s pat with
  | x :: y :: rest => ⟨x.data ++ joinSep pat.data ((y :: rest).map String.data)⟩
  | _ => s

/-- JS truthiness of a possibly-absent string field (`undefined` and `""` are
falsy). -/
def truthyStr : Option String → Bool
  | none => false
  | some s => !(s == "")

/-- JS truthiness of a possibly-absent numeric field (`undefined` and `0` are
falsy). -/
def truthyNat : Option Nat → Bool
  | none => false
  | some n => !(n == 0)

/-- JS `a || b` for an optional string against a default (falsy left operand
selects the right operand). -/
def orElseStr (v : Option String) (d : String) : String :=
  match v with
  | some s => if s = "" then d else s
  | none => d

/-! ## Auth middleware (src/middleware/auth.js, `authMiddleware`) -/

/-- The identity attached to a granted request (`req.user`). -/
structure User where
  id : String
  role : String
deriving DecidableEq, Repr

/-- The implicit system identity `{ id: 'system', role: 'admin' }`. -/
def systemUser : User := { id := "system", role := "admin" }

/-- Outcome of the middleware: the three 401 denial shapes distinguished by the
source (missing/NonBearer header; blank token; failed verification) and the
grant carrying `req.user`. -/
inductive AuthOutcome where
  | missingCredential : AuthOutcome
  | emptyCredential : AuthOutcome
  | invalidCredential : AuthOutcome
  | granted : User → AuthOutcome
deriving DecidableEq, Repr

/-- Shallow embedding of `authMiddleware`.  `devMode` is
`process.env.NODE_ENV === 'development'`, `mcpToken` is
`process.env.MCP_SERVER_TOKEN`, and `verify` abstracts
`jwt.verify(token, process.env.JWT_SECRET)` (`none` = the library threw). -/
def authMiddleware (devMode : Bool) (mcpToken : Option String)
    (verify : String → Option User) (authHeader : Option String) : AuthOutcome :=
  match authHeader with
  | none => .missingCredential
  | some h =>
    if strStartsWith h "Bearer " then
      let token := strDrop h 7
      if (strTrim token).length = 0 then .emptyCredential
      else if devMode = true ∧ mcpToken = some token then .granted systemUser
      else
        match verify token with
        | some decoded => .granted decoded
        | none =>
          if mcpToken = some token then .granted systemUser
          else .invalidCredential
    else .missingCredential

/-- Every `AuthOutcome` other than `granted` is answered with HTTP 401. -/
def authHttpStatus : AuthOutcome → Nat
  | .granted _ => 200
  | _ => 401

/-! ### Auth lemmas -/

theorem isPrefixOf_append (l m : List Char) : l.isPrefixOf (l ++ m) = true := by
  simp [List.isPrefixOf_iff_prefix]

theorem strStartsWith_bearer (t : String) :
    strStartsWith ("Bearer " ++ t) "Bearer " = true := by
  show ("Bearer ".data.isPrefixOf ("Bearer " ++ t).data) = true
  have h : ("Bearer " ++ t).data = "Bearer ".data ++ t.data := rfl
  rw [h]
  exact isPrefixOf_append _ _

theorem strDrop_bearer (t : String) : strDrop ("Bearer " ++ t) 7 = t := by
  show (⟨(("Bearer " ++ t).data).drop 7⟩ : String) = t
  have h : ("Bearer " ++ t).data = "Bearer ".data ++ t.data := rfl
  rw [h]
  have h7 : ("Bearer ".data).length = 7 := by decide
  rw [← h7, List.drop_left]

/-! ### Claim C1 -/

/-- Claim C1 counterexample: the whitespace-only credential `" "` is a
non-empty string, fails signature verification, and differs from the shared
secret `"s"`, yet the middleware answers with the empty-token denial, not the
invalid-credential denial; and a credential equal to a whitespace shared
secret under the development flag is likewise not granted. -/
theorem c1_counterexample :
    (" " : String) ≠ "" ∧ (" " : String) ≠ "s" ∧
    (fun (_ : String) => (none : Option User)) " " = none ∧
    authMiddleware true (some "s") (fun _ => none) (some "Bearer  ") =
      AuthOutcome.emptyCredential ∧
    AuthOutcome.emptyCredential ≠ AuthOutcome.invalidCredential ∧
    authMiddleware true (some " ") (fun _ => none) (some "Bearer  ") =
      AuthOutcome.emptyCredential := by
  refine ⟨by decide, by decide, rfl, by decide, by decide, by decide⟩

/-- Claim C1 (amended): for every credential that is non-empty after trimming,
(a) under the development flag a credential equal to the configured shared
secret is granted with the implicit system identity, and (b) a credential that
fails signature verification against the signing key and differs from the
shared secret is denied with the invalid-credential 401 response. -/
theorem c1_accessGate (devMode : Bool) (secret : String)
    (verify : String → Option User) (token : String)
    (hblank : (strTrim token).length ≠ 0) :
    (devMode = true → token = secret →
      authMiddleware devMode (some secret) verify (some ("Bearer " ++ token)) =
        AuthOutcome.granted systemUser) ∧
    (verify token = none → token ≠ secret →
      authMiddleware devMode (some secret) verify (some ("Bearer " ++ token)) =
        AuthOutcome.invalidCredential ∧
      authHttpStatus (authMiddleware devMode (some secret) verify
        (some ("Bearer " ++ token))) = 401) := by
  have hsw := strStartsWith_bearer token
  have hdrop := strDrop_bearer token
  constructor
  · intro hdev heq
    subst heq
    simp [authMiddleware, hsw, hdrop, hblank, hdev]
  · intro hv hne
    have hne' : secret ≠ token := fun h => hne h.symm
    have hmain :
        authMiddleware devMode (some secret) verify (some ("Bearer " ++ token)) =
          AuthOutcome.invalidCredential := by
      simp [authMiddleware, hsw, hdrop, hblank, hv, hne']
    exact ⟨hmain, by rw [hmain]; rfl⟩

/-- Witness for C1: at dev-mode with secret `"tok"`, the credential `"tok"` is
granted the system identity, and the non-secret credential `"other"` that
fails verification is denied with the invalid-credential 401. -/
theorem c1_accessGate_witness :
    (strTrim "tok").length ≠ 0 ∧ (strTrim "other").length ≠ 0 ∧
    authMiddleware true (some "tok") (fun _ => none) (some ("Bearer " ++ "tok")) =
      AuthOutcome.granted systemUser ∧
    authMiddleware true (some "tok") (fun _ => none) (some ("Bearer " ++ "other")) =
      AuthOutcome.invalidCredential :=
  ⟨by decide, by decide,
    (c1_accessGate true "tok" (fun _ => none) "tok" (by decide)).1 rfl rfl,
    ((c1_accessGate true "tok" (fun _ => none) "other" (by decide)).2 rfl
      (by decide)).1⟩

/-! ## Code-review pipeline (router POST /code-review) -/

/-- The LLM collaborator's response contract:
`{ content, model, provider }`. -/
structure AnalysisResult where
  content : String
  model : String
  provider : String
deriving DecidableEq, Repr

/-- The fixed keyword set scanned by the handler (`riskKeywords`). -/
def riskKeywords : List String :=
  ["security", "vulnerability", "critical", "dangerous", "unsafe"]

/-- `riskKeywords.some(k => analysis.content.toLowerCase().includes(k))`. -/
def hasHighRisk (analysisContent : String) : Bool :=
  riskKeywords.any (fun keyword => strContains (strToLower analysisContent) keyword)

/-- The prompt of the second LLM call (template literal at the suggestions
stage). -/
def suggestionsPrompt (analysisContent : String) : String :=
  "Based on this code analysis, extract 3-5 specific, actionable suggestions:\n\n"
    ++ analysisContent

/-- `content.split('\n').filter(s => s.trim().length > 0).slice(0, 5)`.
In the source this expression is wrapped in a `try`, but on a string content
(the collaborator's contract) none of these steps can throw, so the `catch`
that would substitute the generic suggestion line is unreachable. -/
def suggestionLines (content : String) : List String :=
  ((strSplitOn content "\n").filter (fun s => (strTrim s).length > 0)).take 5

/-- The per-request decision payload built at the end of the pipeline
(timestamp omitted: wall-clock time is outside the model). -/
structure DecisionRecord where
  status : String
  analysis : String
  risk_level : String
  suggestions : List String
  model_used : String
  provider : String
deriving DecidableEq, Repr

/-- The `result` object of the handler (lines building `status`, `analysis`,
`risk_level`, `suggestions`, `model_used`, `provider`). -/
def mkReviewRecord (analysis sresp : AnalysisResult) : DecisionRecord :=
  { status := if hasHighRisk analysis.content then "changes_requested" else "approved"
    analysis := analysis.content
    risk_level := if hasHighRisk analysis.content then "high" else "low"
    suggestions := suggestionLines sresp.content
    model_used := analysis.model
    provider := analysis.provider }

/-- The catch-block mapping from a thrown error's message to an HTTP status:
`404` inside the message gives 404, `401`/`403` give 401, anything else 500. -/
def errorStatus (message : String) : Nat :=
  if strContains message "404" then 404
  else if strContains message "401" || strContains message "403" then 401
  else 500

/-- Collaborator calls made by the code-review handler; `Except.error` models
a rejected promise whose error message reaches the catch block. -/
structure CodeReviewDeps where
  fetchPRDiff : Except String String
  analyzeCode : String → Except String AnalysisResult
  generateResponse : String → Except String AnalysisResult
  postReviewComment : DecisionRecord → Except String Unit

/-- Ordered trace entries of collaborator invocations in the code-review
pipeline. -/
inductive Effect where
  | fetchDiff : Effect
  | analyzeCode : Effect
  | generateSuggestions : Effect
  | postComment : Effect
deriving DecidableEq, Repr

/-- Responses of the code-review handler. -/
inductive CodeReviewResponse where
  | validationError : String → CodeReviewResponse
  | emptyDiffError : CodeReviewResponse
  | pipelineError : Nat → String → CodeReviewResponse
  | success : DecisionRecord → CodeReviewResponse
deriving DecidableEq, Repr

/-- HTTP status of each code-review response shape. -/
def crHttpStatus : CodeReviewResponse → Nat
  | .validationError _ => 400
  | .emptyDiffError => 400
  | .pipelineError s _ => s
  | .success _ => 200

/-- The `error` field of each non-success code-review response. -/
def crErrorMessage : CodeReviewResponse → String
  | .validationError f => "Missing required parameter: " ++ f
  | .emptyDiffError => "No diff content available for analysis"
  | .pipelineError _ _ => "Code review failed"
  | .success _ => ""

/-- Shallow embedding of the POST /code-review handler, returning the response
together with the trace of collaborator invocations. -/
def codeReview (deps : CodeReviewDeps) (repository : Option String)
    (prNumber : Option Nat) : CodeReviewResponse × List Effect :=
  if truthyStr repository = false then (.validationError "repository", [])
  else if truthyNat prNumber = false then (.validationError "pr_number", [])
  else
    match deps.fetchPRDiff with
    | .error e => (.pipelineError (errorStatus e) e, [.fetchDiff])
    | .ok diffContent =>
      if (strTrim diffContent).length = 0 then (.emptyDiffError, [.fetchDiff])
      else
        match deps.analyzeCode diffContent with
        | .error e => (.pipelineError (errorStatus e) e, [.fetchDiff, .analyzeCode])
        | .ok analysis =>
          match deps.generateResponse (suggestionsPrompt analysis.content) with
          | .error e =>
            (.pipelineError (errorStatus e) e,
              [.fetchDiff, .analyzeCode, .generateSuggestions])
          | .ok sresp =>
            let result := mkReviewRecord analysis sresp
            match deps.postReviewComment result with
            | .error e =>
              (.pipelineError (errorStatus e) e,
                [.fetchDiff, .analyzeCode, .generateSuggestions, .postComment])
            | .ok _ =>
              (.success result,
                [.fetchDiff, .analyzeCode, .generateSuggestions, .postComment])

/-- Evaluation of the full pipeline when every stage succeeds. -/
theorem codeReview_run (deps : CodeReviewDeps) (repository : Option String)
    (prNumber : Option Nat) (hr : truthyStr repository = true)
    (hp : truthyNat prNumber = true) (d : String)
    (hd : deps.fetchPRDiff = .ok d) (hne : (strTrim d).length ≠ 0)
    (analysis : AnalysisResult) (ha : deps.analyzeCode d = .ok analysis)
    (sresp : AnalysisResult)
    (hs : deps.generateResponse (suggestionsPrompt analysis.content) = .ok sresp)
    (hpost : deps.postReviewComment (mkReviewRecord analysis sresp) = .ok ()) :
    codeReview deps repository prNumber =
      (.success (mkReviewRecord analysis sresp),
        [.fetchDiff, .analyzeCode, .generateSuggestions, .postComment]) := by
  simp [codeReview, hr, hp, hd, hne, ha, hs, hpost]

/-! ### Claim C7 -/

/-- Claim C7: a code-review request with repository and PR number whose fetched
diff content is empty or whitespace-only is answered with the HTTP 400
validation error naming the diff, and no later stage runs: the trace ends at
the diff fetch, with no LLM analysis, no suggestions call and no posted
comment. -/
theorem c7_emptyDiff (deps : CodeReviewDeps) (repository : Option String)
    (prNumber : Option Nat) (hr : truthyStr repository = true)
    (hp : truthyNat prNumber = true) (d : String)
    (hd : deps.fetchPRDiff = .ok d) (hblank : (strTrim d).length = 0) :
    codeReview deps repository prNumber = (.emptyDiffError, [.fetchDiff]) ∧
    crHttpStatus (codeReview deps repository prNumber).1 = 400 ∧
    strContains (crErrorMessage (codeReview deps repository prNumber).1) "diff"
      = true ∧
    Effect.analyzeCode ∉ (codeReview deps repository prNumber).2 ∧
    Effect.generateSuggestions ∉ (codeReview deps repository prNumber).2 ∧
    Effect.postComment ∉ (codeReview deps repository prNumber).2 := by
  have hmain : codeReview deps repository prNumber = (.emptyDiffError, [.fetchDiff]) := by
    simp [codeReview, hr, hp, hd, hblank]
  refine ⟨hmain, ?_, ?_, ?_, ?_, ?_⟩ <;> rw [hmain] <;> decide

/-- Witness for C7: a concrete request whose diff fetch returns whitespace. -/
theorem c7_emptyDiff_witness :
    codeReview
      { fetchPRDiff := .ok "   "
        analyzeCode := fun _ => .error "unused"
        generateResponse := fun _ => .error "unused"
        postReviewComment := fun _ => .error "unused" }
      (some "octo/app") (some 7) = (.emptyDiffError, [.fetchDiff]) ∧
    crHttpStatus CodeReviewResponse.emptyDiffError = 400 := by
  have h := c7_emptyDiff
    { fetchPRDiff := .ok "   "
      analyzeCode := fun _ => .error "unused"
      generateResponse := fun _ => .error "unused"
      postReviewComment := fun _ => .error "unused" }
    (some "octo/app") (some 7) (by decide) (by decide) "   " rfl (by decide)
  exact ⟨h.1, by decide⟩

/-! ### Claim C2 -/

/-- Concrete dependencies for the C2 counterexample: every stage up to the
analysis succeeds, and the second LLM call (suggestions extraction) rejects. -/
def c2Deps : CodeReviewDeps :=
  { fetchPRDiff := .ok "diff content"
    analyzeCode := fun _ => .ok { content := "looks fine", model := "m", provider := "p" }
    generateResponse := fun _ => .error "llm unavailable"
    postReviewComment := fun _ => .ok () }

/-- Claim C2 counterexample: with validation, diff fetch and primary analysis
all succeeded, a failing second LLM call does NOT degrade to a generic
suggestion line — the whole pipeline aborts with a 500 error response, no
decision record is returned and no review comment is posted. -/
theorem c2_counterexample :
    codeReview c2Deps (some "octo/app") (some 42) =
      (.pipelineError 500 "llm unavailable",
        [.fetchDiff, .analyzeCode, .generateSuggestions]) ∧
    crHttpStatus (codeReview c2Deps (some "octo/app") (some 42)).1 = 500 ∧
    Effect.postComment ∉ (codeReview c2Deps (some "octo/app") (some 42)).2 := by
  refine ⟨by decide, by decide, by decide⟩

/-- Claim C2 (amended): the `try/catch` around the suggestions stage only
guards the post-processing of a successful response; if the second LLM call
itself fails, the pipeline aborts with the catch-block error response (status
derived from the error message) and no review comment is posted — it does not
continue with a degraded suggestions list. -/
theorem c2_suggestionsStage (deps : CodeReviewDeps) (repository : Option String)
    (prNumber : Option Nat) (hr : truthyStr repository = true)
    (hp : truthyNat prNumber = true) (d : String)
    (hd : deps.fetchPRDiff = .ok d) (hne : (strTrim d).length ≠ 0)
    (analysis : AnalysisResult) (ha : deps.analyzeCode d = .ok analysis)
    (e : String)
    (hs : deps.generateResponse (suggestionsPrompt analysis.content) = .error e) :
    codeReview deps repository prNumber =
      (.pipelineError (errorStatus e) e,
        [.fetchDiff, .analyzeCode, .generateSuggestions]) ∧
    Effect.postComment ∉ (codeReview deps repository prNumber).2 := by
  have hmain : codeReview deps repository prNumber =
      (.pipelineError (errorStatus e) e,
        [.fetchDiff, .analyzeCode, .generateSuggestions]) := by
    simp [codeReview, hr, hp, hd, hne, ha, hs]
  refine ⟨hmain, ?_⟩
  rw [hmain]
  show Effect.postComment ∉ [Effect.fetchDiff, Effect.analyzeCode, Effect.generateSuggestions]
  decide

/-- Witness for C2 (amended) at concrete dependencies. -/
theorem c2_suggestionsStage_witness :
    codeReview c2Deps (some "octo/app") (some 1) =
      (.pipelineError (errorStatus "llm unavailable") "llm unavailable",
        [.fetchDiff, .analyzeCode, .generateSuggestions]) :=
  (c2_suggestionsStage c2Deps (some "octo/app") (some 1) (by decide) (by decide)
    "diff content" rfl (by decide)
    { content := "looks fine", model := "m", provider := "p" } rfl
    "llm unavailable" rfl).1

/-! ### Claim C3 -/

/-- Claim C3: for a code-review request in which every stage succeeds, if the
analysis text contains a (lowercased) occurrence of any keyword in
{security, vulnerability, critical, dangerous, unsafe} the decision record has
risk_level "high" and status "changes_requested", and if it contains none of
them it has risk_level "low" and status "approved". -/
theorem c3_riskClassifier (deps : CodeReviewDeps) (repository : Option String)
    (prNumber : Option Nat) (hr : truthyStr repository = true)
    (hp : truthyNat prNumber = true) (d : String)
    (hd : deps.fetchPRDiff = .ok d) (hne : (strTrim d).length ≠ 0)
    (analysis : AnalysisResult) (ha : deps.analyzeCode d = .ok analysis)
    (sresp : AnalysisResult)
    (hs : deps.generateResponse (suggestionsPrompt analysis.content) = .ok sresp)
    (hpost : deps.postReviewComment (mkReviewRecord analysis sresp) = .ok ()) :
    ((∃ kw ∈ riskKeywords, strContains (strToLower analysis.content) kw = true) →
      (codeReview deps repository prNumber).1 =
        .success (mkReviewRecord analysis sresp) ∧
      (mkReviewRecord analysis sresp).risk_level = "high" ∧
      (mkReviewRecord analysis sresp).status = "changes_requested") ∧
    ((∀ kw ∈ riskKeywords, strContains (strToLower analysis.content) kw = false) →
      (codeReview deps repository prNumber).1 =
        .success (mkReviewRecord analysis sresp) ∧
      (mkReviewRecord analysis sresp).risk_level = "low" ∧
      (mkReviewRecord analysis sresp).status = "approved") := by
  have hrun := codeReview_run deps repository prNumber hr hp d hd hne analysis ha
    sresp hs hpost
  have h1 : (codeReview deps repository prNumber).1 =
      .success (mkReviewRecord analysis sresp) := by rw [hrun]
  constructor
  · intro hkw
    have hhr : hasHighRisk analysis.content = true := by
      rw [hasHighRisk, List.any_eq_true]
      obtain ⟨kw, hmem, hc⟩ := hkw
      exact ⟨kw, hmem, hc⟩
    exact ⟨h1, by simp [mkReviewRecord, hhr], by simp [mkReviewRecord, hhr]⟩
  · intro hkw
    have hhr : hasHighRisk analysis.content = false := by
      rw [hasHighRisk, List.any_eq_false]
      intro kw hmem
      simp [hkw kw hmem]
    exact ⟨h1, by simp [mkReviewRecord, hhr], by simp [mkReviewRecord, hhr]⟩

/-- Concrete dependencies for the C3 witness: the analysis text mentions
"Security", the suggestions call succeeds. -/
def c3Deps : CodeReviewDeps :=
  { fetchPRDiff := .ok "diff content"
    analyzeCode := fun _ =>
      .ok { content := "Potential Security problem in handler", model := "m", provider := "p" }
    generateResponse := fun _ =>
      .ok { content := "Fix the handler\nAdd a test", model := "m", provider := "p" }
    postReviewComment := fun _ => .ok () }

/-- Witness for C3: a concrete run whose analysis mentions "Security" ends as
changes_requested / high. -/
theorem c3_riskClassifier_witness :
    (codeReview c3Deps (some "octo/app") (some 3)).1 =
      .success (mkReviewRecord
        { content := "Potential Security problem in handler", model := "m", provider := "p" }
        { content := "Fix the handler\nAdd a test", model := "m", provider := "p" }) ∧
    (mkReviewRecord
        { content := "Potential Security problem in handler", model := "m", provider := "p" }
        { content := "Fix the handler\nAdd a test", model := "m", provider := "p" }).risk_level
      = "high" ∧
    (mkReviewRecord
        { content := "Potential Security problem in handler", model := "m", provider := "p" }
        { content := "Fix the handler\nAdd a test", model := "m", provider := "p" }).status
      = "changes_requested" :=
  (c3_riskClassifier c3Deps (some "octo/app") (some 3) (by decide) (by decide)
    "diff content" rfl (by decide)
    { content := "Potential Security problem in handler", model := "m", provider := "p" } rfl
    { content := "Fix the handler\nAdd a test", model := "m", provider := "p" } rfl rfl).1
    ⟨"security", by decide, by decide⟩

/-! ## Framework catalog (helper functions `detectTestFramework` and
`generateTestFileName`) -/

/-- The `frameworks` extension table of `detectTestFramework`. -/
def frameworksTable : List (String × String) :=
  [("js", "jest"), ("ts", "jest"), ("py", "pytest"), ("java", "junit"),
   ("go", "testing"), ("rb", "rspec"), ("php", "phpunit")]

/-- JS `filename.split('.').pop()`. -/
def lastExt (filename : String) : String :=
  (strSplitOn filename ".").getLastD ""

/-- Shallow embedding of `detectTestFramework(content, filename)` (the
`content` argument is accepted but unused by the source). -/
def detectTestFramework (content filename : String) : String :=
  if strContains filename ".test." || strContains filename ".spec." then "existing"
  else
    match frameworksTable.lookup (lastExt filename) with
    | some fw => fw
    | none => "generic"

/-- Shallow embedding of `generateTestFileName(filename, framework)`: the
`patterns` table keyed by framework, defaulting to the jest-style name. -/
def generateTestFileName (filename framework : String) : String :=
  let ext := lastExt filename
  let baseName := replaceFirst filename ("." ++ ext)
  match framework with
  | "jest" => baseName ++ ".test." ++ ext
  | "pytest" => "test_" ++ ((strSplitOn baseName "/").getLastD "") ++ ".py"
  | "junit" => baseName ++ "Test.java"
  | "testing" => baseName ++ "_test.go"
  | "rspec" => baseName ++ "_spec.rb"
  | "phpunit" => baseName ++ "Test.php"
  | _ => baseName ++ ".test." ++ ext

/-! ### Claim C6 -/

/-- Claim C6: resolving "foo.py" yields framework "pytest" with test filename
"test_foo.py"; resolving "a/b/Widget.java" yields "junit" with
"a/b/WidgetTest.java"; resolving "x.unknownext" yields "generic"; and the
extension table is exactly js/ts→jest, py→pytest, java→junit, go→testing,
rb→rspec, php→phpunit. -/
theorem c6_frameworkCatalog :
    detectTestFramework "" "foo.py" = "pytest" ∧
    generateTestFileName "foo.py" "pytest" = "test_foo.py" ∧
    detectTestFramework "" "a/b/Widget.java" = "junit" ∧
    generateTestFileName "a/b/Widget.java" "junit" = "a/b/WidgetTest.java" ∧
    detectTestFramework "" "x.unknownext" = "generic" ∧
    frameworksTable =
      [("js", "jest"), ("ts", "jest"), ("py", "pytest"), ("java", "junit"),
       ("go", "testing"), ("rb", "rspec"), ("php", "phpunit")] ∧
    detectTestFramework "" "a.js" = "jest" ∧
    detectTestFramework "" "a.ts" = "jest" ∧
    detectTestFramework "" "a.py" = "pytest" ∧
    detectTestFramework "" "a.java" = "junit" ∧
    detectTestFramework "" "a.go" = "testing" ∧
    detectTestFramework "" "a.rb" = "rspec" ∧
    detectTestFramework "" "a.php" = "phpunit" := by
  decide

/-! ## Test-writer pipeline (router POST /test-writer) -/

/-- One element of the changed-files listing returned by the DevOps
collaborator (`content` may be absent for binary/removed files). -/
structure ChangedFile where
  filename : String
  content : Option String
deriving DecidableEq, Repr

/-- One entry of the handler's `generatedTests` accumulator. -/
structure GeneratedTest where
  filename : String
  test_file : String
  tests : String
  framework : String
deriving DecidableEq, Repr

/-- `file.filename.match(/\.(js|ts|py|java|go)$/)`. -/
def extAllowed (filename : String) : Bool :=
  strEndsWith filename ".js" || strEndsWith filename ".ts" ||
  strEndsWith filename ".py" || strEndsWith filename ".java" ||
  strEndsWith filename ".go"

/-- Collaborator calls of the test-writer handler. -/
structure TestWriterDeps where
  fetchChangedFiles : Except String (List ChangedFile)
  generateTests : String → String → Except String AnalysisResult
  createTestFile : String → String → Except String Unit

/-- The per-file generation loop: skip files without truthy content or with a
disallowed extension, otherwise resolve the framework (caller override or
catalog lookup) and request generated tests. -/
def testWriterGen (deps : TestWriterDeps) (testFramework : Option String) :
    List ChangedFile → Except String (List GeneratedTest)
  | [] => .ok []
  | f :: rest =>
    match f.content with
    | some c =>
      if c ≠ "" ∧ extAllowed f.filename = true then
        match deps.generateTests c (orElseStr testFramework (detectTestFramework c f.filename)) with
        | .error e => .error e
        | .ok tests =>
          match testWriterGen deps testFramework rest with
          | .error e => .error e
          | .ok gts =>
            .ok ({ filename := f.filename
                   test_file := generateTestFileName f.filename
                     (orElseStr testFramework (detectTestFramework c f.filename))
                   tests := tests.content
                   framework := orElseStr testFramework (detectTestFramework c f.filename) } :: gts)
      else testWriterGen deps testFramework rest
    | none => testWriterGen deps testFramework rest

/-- The second loop: create every generated test file in the repository. -/
def testWriterCreate (deps : TestWriterDeps) : List GeneratedTest → Except String Unit
  | [] => .ok ()
  | t :: rest =>
    match deps.createTestFile t.test_file t.tests with
    | .error e => .error e
    | .ok _ => testWriterCreate deps rest

/-! ### Binary64 arithmetic for the coverage estimate

`Math.min(85 + Math.random() * 10, 95)` is computed by the source in IEEE-754
double precision: the product and the sum are each rounded to the nearest
double (ties to even).  The rounding is modelled exactly on rationals; it is
faithful on zero and the normal range, which covers every value this
expression produces.  `Math.min` itself compares exactly and returns one of
its arguments, so it needs no rounding. -/

/-- Fuel-driven binary logarithm on naturals (structural recursion so the
kernel can evaluate it; fuel is instantiated with the argument). -/
def natLog2Fuel : ℕ → ℕ → ℕ
  | 0, _ => 0
  | fuel + 1, n => if 2 ≤ n then natLog2Fuel fuel (n / 2) + 1 else 0

/-- `⌊log₂ n⌋` for `n ≥ 1`. -/
def natLog2 (n : ℕ) : ℕ := natLog2Fuel n n

/-- `(2 : ℚ) ^ e` for an integer exponent, without `zpow` so that the
definition stays executable by plain reduction. -/
def pow2 (e : ℤ) : ℚ :=
  if 0 ≤ e then ((2 ^ e.toNat : ℕ) : ℚ) else (((2 ^ (-e).toNat : ℕ) : ℚ))⁻¹

/-- Greatest `e : ℤ` with `2^e ≤ x`, for `x > 0` (the exponent of the binade
containing `x`). -/
def floorLog2 (x : ℚ) : ℤ :=
  if x < pow2 ((natLog2 x.num.toNat : ℤ) - natLog2 x.den)
  then (natLog2 x.num.toNat : ℤ) - natLog2 x.den - 1
  else (natLog2 x.num.toNat : ℤ) - natLog2 x.den

/-- Round to the nearest integer, ties to the even integer. -/
def roundToInt (x : ℚ) : ℤ :=
  if x - ⌊x⌋ < 1 / 2 then ⌊x⌋
  else if 1 / 2 < x - ⌊x⌋ then ⌊x⌋ + 1
  else if ⌊x⌋ % 2 = 0 then ⌊x⌋ else ⌊x⌋ + 1

/-- Round a positive rational to the binary64 grid of its binade: scale to a
53-bit significand, round to nearest (ties to even), scale back. -/
def roundPos (x : ℚ) : ℚ :=
  (roundToInt (x / pow2 (floorLog2 x - 52)) : ℚ) * pow2 (floorLog2 x - 52)

/-- IEEE-754 binary64 round-to-nearest-even on exact rationals (faithful on
zero and the normal range). -/
def roundD (x : ℚ) : ℚ :=
  if x = 0 then 0
  else if 0 < x then roundPos x
  else -roundPos (-x)

/-- JS `Math.min` on two doubles (exact comparison, returns an argument). -/
def mathMin (a b : ℚ) : ℚ := if a ≤ b then a else b

/-- `Math.min(85 + Math.random() * 10, 95)` with the random sample injected,
under binary64 semantics: the product `r * 10` and the sum `85 + _` are each
rounded to the nearest double. -/
def coverageEstimate (r : ℚ) : ℚ := mathMin (roundD (85 + roundD (r * 10))) 95

theorem natLog2Fuel_spec (fuel : ℕ) :
    ∀ n : ℕ, 1 ≤ n → n ≤ fuel →
      2 ^ natLog2Fuel fuel n ≤ n ∧ n < 2 ^ (natLog2Fuel fuel n + 1) := by
  induction fuel with
  | zero => intro n h1 h2; omega
  | succ fuel ih =>
    intro n h1 h2
    show 2 ^ (if 2 ≤ n then natLog2Fuel fuel (n / 2) + 1 else 0) ≤ n ∧
      n < 2 ^ ((if 2 ≤ n then natLog2Fuel fuel (n / 2) + 1 else 0) + 1)
    by_cases h : 2 ≤ n
    · rw [if_pos h]
      have hdiv1 : 1 ≤ n / 2 := (Nat.one_le_div_iff (by norm_num)).mpr h
      have hdiv2 : n / 2 ≤ fuel := by
        have := Nat.div_lt_self (by omega : 0 < n) (by norm_num : 1 < 2)
        omega
      obtain ⟨hlo, hhi⟩ := ih (n / 2) hdiv1 hdiv2
      constructor
      · have := (Nat.le_div_iff_mul_le (by norm_num : 0 < 2)).mp hlo
        calc 2 ^ (natLog2Fuel fuel (n / 2) + 1)
            = 2 ^ natLog2Fuel fuel (n / 2) * 2 := by rw [pow_succ]
          _ ≤ n := this
      · have := (Nat.div_lt_iff_lt_mul (by norm_num : 0 < 2)).mp hhi
        calc n < 2 ^ (natLog2Fuel fuel (n / 2) + 1) * 2 := this
          _ = 2 ^ (natLog2Fuel fuel (n / 2) + 1 + 1) := by ring
    · rw [if_neg h]
      omega

theorem natLog2_spec (n : ℕ) (h : 1 ≤ n) :
    2 ^ natLog2 n ≤ n ∧ n < 2 ^ (natLog2 n + 1) :=
  natLog2Fuel_spec n n h le_rfl

theorem pow2_eq_zpow (e : ℤ) : pow2 e = (2 : ℚ) ^ e := by
  unfold pow2
  split_ifs with h
  · push_cast
    rw [← zpow_natCast (2 : ℚ) e.toNat, Int.toNat_of_nonneg h]
  · push_neg at h
    push_cast
    rw [← zpow_natCast (2 : ℚ) (-e).toNat, Int.toNat_of_nonneg (by omega), ← zpow_neg]
    norm_num

theorem floorLog2_spec (x : ℚ) (hx : 0 < x) :
    (2 : ℚ) ^ floorLog2 x ≤ x ∧ x < 2 ^ (floorLog2 x + 1) := by
  set p : ℕ := x.num.toNat with hp
  set q : ℕ := x.den with hq
  have hp1 : 1 ≤ p := by
    have := Rat.num_pos.mpr hx
    omega
  have hq1 : 1 ≤ q := x.pos
  obtain ⟨hpa, hpb⟩ := natLog2_spec p hp1
  obtain ⟨hqa, hqb⟩ := natLog2_spec q hq1
  set a : ℕ := natLog2 p with ha
  set b : ℕ := natLog2 q with hb
  have hxeq : x = (p : ℚ) / (q : ℚ) := by
    have hcast : ((p : ℕ) : ℚ) = ((x.num : ℤ) : ℚ) := by
      rw [hp]
      exact_mod_cast congrArg (fun z : ℤ => (z : ℚ))
        (Int.toNat_of_nonneg (le_of_lt (Rat.num_pos.mpr hx)))
    rw [hcast, hq]
    exact (Rat.num_div_den x).symm
  have hqpos : (0 : ℚ) < (q : ℚ) := by exact_mod_cast hq1
  have key1 : x < (2 : ℚ) ^ ((a : ℤ) + 1 - b) := by
    rw [hxeq, zpow_sub₀ (two_ne_zero), div_lt_div_iff₀ hqpos (by positivity)]
    have hnat : p * 2 ^ b < 2 ^ (a + 1) * q := by
      calc p * 2 ^ b < 2 ^ (a + 1) * 2 ^ b := by
            exact (Nat.mul_lt_mul_right (Nat.two_pow_pos b)).mpr hpb
        _ ≤ 2 ^ (a + 1) * q := Nat.mul_le_mul_left _ hqa
    calc (p : ℚ) * (2 : ℚ) ^ (b : ℤ) = ((p * 2 ^ b : ℕ) : ℚ) := by
          push_cast [← zpow_natCast (2 : ℚ) b]
          ring
      _ < ((2 ^ (a + 1) * q : ℕ) : ℚ) := by exact_mod_cast hnat
      _ = (2 : ℚ) ^ ((a : ℤ) + 1) * (q : ℚ) := by
          push_cast [← zpow_natCast (2 : ℚ) (a + 1)]
          ring
  have key2 : (2 : ℚ) ^ ((a : ℤ) - b - 1) ≤ x := by
    have h1 : ((a : ℤ) - b - 1) = (a : ℤ) - ((b : ℤ) + 1) := by ring
    rw [hxeq, h1, zpow_sub₀ (two_ne_zero), div_le_div_iff₀ (by positivity) hqpos]
    have hnat : 2 ^ a * q ≤ p * 2 ^ (b + 1) := by
      calc 2 ^ a * q ≤ p * q := Nat.mul_le_mul_right _ hpa
        _ ≤ p * 2 ^ (b + 1) := Nat.mul_le_mul_left _ (le_of_lt hqb)
    calc (2 : ℚ) ^ ((a : ℤ)) * (q : ℚ) = ((2 ^ a * q : ℕ) : ℚ) := by
          push_cast [← zpow_natCast (2 : ℚ) a]
          ring
      _ ≤ ((p * 2 ^ (b + 1) : ℕ) : ℚ) := by exact_mod_cast hnat
      _ = (p : ℚ) * (2 : ℚ) ^ ((b : ℤ) + 1) := by
          push_cast [← zpow_natCast (2 : ℚ) (b + 1)]
          ring
  unfold floorLog2
  rw [← hp, ← hq, ← ha, ← hb, pow2_eq_zpow]
  by_cases hcase : x < (2 : ℚ) ^ ((a : ℤ) - b)
  · rw [if_pos hcase]
    refine ⟨key2, ?_⟩
    have heq : (a : ℤ) - b - 1 + 1 = (a : ℤ) - b := by ring
    rw [heq]
    exact hcase
  · rw [if_neg hcase]
    refine ⟨not_lt.mp hcase, ?_⟩
    have heq : (a : ℤ) - b + 1 = (a : ℤ) + 1 - b := by ring
    rw [heq]
    exact key1

theorem floor_le_roundToInt (x : ℚ) : ⌊x⌋ ≤ roundToInt x := by
  unfold roundToInt
  split_ifs <;> omega

theorem roundToInt_le_floor_add_one (x : ℚ) : roundToInt x ≤ ⌊x⌋ + 1 := by
  unfold roundToInt
  split_ifs <;> omega

theorem roundToInt_mono {x y : ℚ} (h : x ≤ y) : roundToInt x ≤ roundToInt y := by
  rcases eq_or_lt_of_le (Int.floor_mono h) with hf | hf
  · unfold roundToInt
    rw [← hf]
    split_ifs <;> first | omega | (exfalso; linarith)
  · calc roundToInt x ≤ ⌊x⌋ + 1 := roundToInt_le_floor_add_one x
      _ ≤ ⌊y⌋ := by omega
      _ ≤ roundToInt y := floor_le_roundToInt y

theorem intPow_cast_eq_zpow (k : ℕ) : (((2 : ℤ) ^ k : ℤ) : ℚ) = (2 : ℚ) ^ (k : ℤ) := by
  push_cast
  rw [zpow_natCast]

theorem roundPos_lower {x : ℚ} (hx : 0 < x) : (2 : ℚ) ^ floorLog2 x ≤ roundPos x := by
  obtain ⟨hlo, _⟩ := floorLog2_spec x hx
  set f : ℤ := floorLog2 x with hf
  have hepos : (0 : ℚ) < 2 ^ (f - 52) := by positivity
  have hm : (2 : ℚ) ^ (52 : ℤ) ≤ x / 2 ^ (f - 52) := by
    rw [le_div_iff₀ hepos, ← zpow_add₀ (two_ne_zero : (2 : ℚ) ≠ 0)]
    have h52 : (52 : ℤ) + (f - 52) = f := by ring
    rw [h52]
    exact hlo
  have hfloor : (2 : ℤ) ^ (52 : ℕ) ≤ ⌊x / pow2 (f - 52)⌋ := by
    apply Int.le_floor.mpr
    rw [pow2_eq_zpow, intPow_cast_eq_zpow]
    exact_mod_cast hm
  have hround : (2 : ℤ) ^ (52 : ℕ) ≤ roundToInt (x / pow2 (f - 52)) :=
    le_trans hfloor (floor_le_roundToInt _)
  have hcast : (2 : ℚ) ^ (52 : ℤ) ≤ (roundToInt (x / pow2 (f - 52)) : ℚ) :=
    calc (2 : ℚ) ^ (52 : ℤ) = (((2 : ℤ) ^ (52 : ℕ) : ℤ) : ℚ) :=
          (intPow_cast_eq_zpow 52).symm
      _ ≤ (roundToInt (x / pow2 (f - 52)) : ℚ) := Int.cast_le.mpr hround
  calc (2 : ℚ) ^ f = (2 : ℚ) ^ (52 : ℤ) * 2 ^ (f - 52) := by
        rw [← zpow_add₀ (two_ne_zero : (2 : ℚ) ≠ 0)]
        congr 1
        ring
    _ ≤ (roundToInt (x / pow2 (f - 52)) : ℚ) * 2 ^ (f - 52) :=
        mul_le_mul_of_nonneg_right hcast (le_of_lt hepos)
    _ = roundPos x := by rw [roundPos, ← hf, pow2_eq_zpow]

theorem roundPos_upper {x : ℚ} (hx : 0 < x) :
    roundPos x ≤ (2 : ℚ) ^ (floorLog2 x + 1) := by
  obtain ⟨_, hhi⟩ := floorLog2_spec x hx
  set f : ℤ := floorLog2 x with hf
  have hepos : (0 : ℚ) < 2 ^ (f - 52) := by positivity
  have hm : x / 2 ^ (f - 52) < (2 : ℚ) ^ (53 : ℤ) := by
    rw [div_lt_iff₀ hepos, ← zpow_add₀ (two_ne_zero : (2 : ℚ) ≠ 0)]
    have h53 : (53 : ℤ) + (f - 52) = f + 1 := by ring
    rw [h53]
    exact hhi
  have hfloor : ⌊x / pow2 (f - 52)⌋ < (2 : ℤ) ^ (53 : ℕ) := by
    apply Int.floor_lt.mpr
    rw [pow2_eq_zpow, intPow_cast_eq_zpow]
    exact_mod_cast hm
  have hround : roundToInt (x / pow2 (f - 52)) ≤ (2 : ℤ) ^ (53 : ℕ) := by
    have := roundToInt_le_floor_add_one (x / pow2 (f - 52))
    omega
  have hcast : (roundToInt (x / pow2 (f - 52)) : ℚ) ≤ (2 : ℚ) ^ (53 : ℤ) :=
    calc (roundToInt (x / pow2 (f - 52)) : ℚ) ≤ (((2 : ℤ) ^ (53 : ℕ) : ℤ) : ℚ) :=
          Int.cast_le.mpr hround
      _ = (2 : ℚ) ^ (53 : ℤ) := intPow_cast_eq_zpow 53
  calc roundPos x = (roundToInt (x / pow2 (f - 52)) : ℚ) * 2 ^ (f - 52) := by
        rw [roundPos, ← hf, pow2_eq_zpow]
    _ ≤ (2 : ℚ) ^ (53 : ℤ) * 2 ^ (f - 52) :=
        mul_le_mul_of_nonneg_right hcast (le_of_lt hepos)
    _ = (2 : ℚ) ^ (f + 1) := by
        rw [← zpow_add₀ (two_ne_zero : (2 : ℚ) ≠ 0)]
        congr 1
        ring

theorem roundPos_mono {x y : ℚ} (hx : 0 < x) (h : x ≤ y) :
    roundPos x ≤ roundPos y := by
  have hy : 0 < y := lt_of_lt_of_le hx h
  obtain ⟨hxlo, hxhi⟩ := floorLog2_spec x hx
  obtain ⟨hylo, hyhi⟩ := floorLog2_spec y hy
  have hfle : floorLog2 x ≤ floorLog2 y := by
    by_contra hcon
    push_neg at hcon
    have h2 : (2 : ℚ) ^ (floorLog2 y + 1) ≤ 2 ^ floorLog2 x :=
      zpow_le_zpow_right₀ (by norm_num) (by omega)
    linarith
  rcases eq_or_lt_of_le hfle with hfeq | hflt
  · unfold roundPos
    rw [← hfeq]
    have hepos : (0 : ℚ) < pow2 (floorLog2 x - 52) := by
      rw [pow2_eq_zpow]
      positivity
    apply mul_le_mul_of_nonneg_right _ (le_of_lt hepos)
    have hdiv : x / pow2 (floorLog2 x - 52) ≤ y / pow2 (floorLog2 x - 52) := by
      gcongr
    exact_mod_cast roundToInt_mono hdiv
  · calc roundPos x ≤ (2 : ℚ) ^ (floorLog2 x + 1) := roundPos_upper hx
      _ ≤ (2 : ℚ) ^ floorLog2 y := zpow_le_zpow_right₀ (by norm_num) (by omega)
      _ ≤ roundPos y := roundPos_lower hy

theorem roundD_nonneg {x : ℚ} (hx : 0 ≤ x) : 0 ≤ roundD x := by
  unfold roundD
  rcases eq_or_lt_of_le hx with h0 | h0
  · rw [if_pos h0.symm]
  · rw [if_neg (ne_of_gt h0), if_pos h0]
    have hpow : (0 : ℚ) < 2 ^ floorLog2 x := by positivity
    exact le_of_lt (lt_of_lt_of_le hpow (roundPos_lower h0))

theorem roundD_mono_nonneg {x y : ℚ} (hx : 0 ≤ x) (h : x ≤ y) :
    roundD x ≤ roundD y := by
  rcases eq_or_lt_of_le hx with h0 | h0
  · rw [← h0]
    have hzero : roundD 0 = 0 := by unfold roundD; norm_num
    rw [hzero]
    exact roundD_nonneg (le_trans hx h)
  · have hy : 0 < y := lt_of_lt_of_le h0 h
    unfold roundD
    rw [if_neg (ne_of_gt h0), if_pos h0, if_neg (ne_of_gt hy), if_pos hy]
    exact roundPos_mono h0 h

theorem roundD_of_pos {x : ℚ} (hx : 0 < x) : roundD x = roundPos x := by
  unfold roundD
  rw [if_neg (ne_of_gt hx), if_pos hx]

theorem floorLog2_eq {x : ℚ} (hx : 0 < x) (e : ℤ)
    (hlo : (2 : ℚ) ^ e ≤ x) (hhi : x < 2 ^ (e + 1)) : floorLog2 x = e := by
  obtain ⟨s1, s2⟩ := floorLog2_spec x hx
  by_contra hne
  rcases lt_or_gt_of_ne hne with hlt | hgt
  · have hstep : (2 : ℚ) ^ (floorLog2 x + 1) ≤ 2 ^ e :=
      zpow_le_zpow_right₀ (by norm_num) (by omega)
    linarith
  · have hstep : (2 : ℚ) ^ (e + 1) ≤ 2 ^ floorLog2 x :=
      zpow_le_zpow_right₀ (by norm_num) (by omega)
    linarith

theorem roundToInt_eval_down {w : ℚ} {n : ℤ} (hfl : ⌊w⌋ = n)
    (hfr : w - n < 1 / 2) : roundToInt w = n := by
  unfold roundToInt
  rw [hfl, if_pos hfr]

theorem roundToInt_eval_up {w : ℚ} {n : ℤ} (hfl : ⌊w⌋ = n)
    (hfr : 1 / 2 < w - n) : roundToInt w = n + 1 := by
  unfold roundToInt
  rw [hfl, if_neg (by linarith), if_pos hfr]

theorem roundD_eval_down (x p : ℚ) (e n : ℤ) (hx : 0 < x)
    (hp : pow2 (e - 52) = p)
    (hlo : (2 : ℚ) ^ e ≤ x) (hhi : x < 2 ^ (e + 1))
    (hfl : ⌊x / p⌋ = n) (hfr : x / p - n < 1 / 2) :
    roundD x = (n : ℚ) * p := by
  have hf := floorLog2_eq hx e hlo hhi
  rw [roundD_of_pos hx]
  unfold roundPos
  rw [hf, hp, roundToInt_eval_down hfl hfr]

theorem roundD_eval_up (x p : ℚ) (e n : ℤ) (hx : 0 < x)
    (hp : pow2 (e - 52) = p)
    (hlo : (2 : ℚ) ^ e ≤ x) (hhi : x < 2 ^ (e + 1))
    (hfl : ⌊x / p⌋ = n) (hfr : 1 / 2 < x / p - n) :
    roundD x = ((n + 1 : ℤ) : ℚ) * p := by
  have hf := floorLog2_eq hx e hlo hhi
  rw [roundD_of_pos hx]
  unfold roundPos
  rw [hf, hp, roundToInt_eval_up hfl hfr]

theorem roundD_85 : roundD (85 : ℚ) = 85 := by
  have h := roundD_eval_down 85 ((70368744177664 : ℚ)⁻¹) 6 5981343255101440
    (by norm_num) rfl (by norm_num) (by norm_num)
    (by rw [Int.floor_eq_iff]; norm_num) (by norm_num)
  rw [h]
  norm_num

theorem coverageEstimate_bounds (r : ℚ) (h0 : 0 ≤ r) :
    85 ≤ coverageEstimate r ∧ coverageEstimate r ≤ 95 := by
  have ht : 0 ≤ roundD (r * 10) := roundD_nonneg (by positivity)
  have hs : (85 : ℚ) ≤ roundD (85 + roundD (r * 10)) := by
    calc (85 : ℚ) = roundD 85 := roundD_85.symm
      _ ≤ roundD (85 + roundD (r * 10)) :=
          roundD_mono_nonneg (by norm_num) (by linarith)
  unfold coverageEstimate mathMin
  split_ifs with hc
  · exact ⟨hs, hc⟩
  · exact ⟨by norm_num, le_refl _⟩

theorem coverageEstimate_half : coverageEstimate (1 / 2) = 90 := by
  have h5 : roundD ((1 / 2 : ℚ) * 10) = 5 := by
    have h := roundD_eval_down ((1 / 2 : ℚ) * 10) ((1125899906842624 : ℚ)⁻¹) 2
      5629499534213120 (by norm_num) rfl (by norm_num) (by norm_num)
      (by rw [Int.floor_eq_iff]; norm_num) (by norm_num)
    rw [h]
    norm_num
  have h90 : roundD ((85 : ℚ) + 5) = 90 := by
    have h := roundD_eval_down ((85 : ℚ) + 5) ((70368744177664 : ℚ)⁻¹) 6
      6333186975989760 (by norm_num) rfl (by norm_num) (by norm_num)
      (by rw [Int.floor_eq_iff]; norm_num) (by norm_num)
    rw [h]
    norm_num
  unfold coverageEstimate mathMin
  rw [h5, h90]
  norm_num

theorem coverageEstimate_top :
    coverageEstimate (9007199254740991 / 9007199254740992) = 95 := by
  have h1 : roundD ((9007199254740991 / 9007199254740992 : ℚ) * 10) =
      (5629499534213119 : ℚ) * (562949953421312 : ℚ)⁻¹ :=
    roundD_eval_down _ _ 3 5629499534213119 (by norm_num) rfl
      (by norm_num) (by norm_num)
      (by rw [Int.floor_eq_iff]; norm_num) (by norm_num)
  have h2 : roundD ((85 : ℚ) + (5629499534213119 : ℚ) * (562949953421312 : ℚ)⁻¹) =
      ((6685030696878079 + 1 : ℤ) : ℚ) * (70368744177664 : ℚ)⁻¹ :=
    roundD_eval_up _ _ 6 6685030696878079 (by norm_num) rfl
      (by norm_num) (by norm_num)
      (by rw [Int.floor_eq_iff]; norm_num) (by norm_num)
  have h3 : ((6685030696878079 + 1 : ℤ) : ℚ) * (70368744177664 : ℚ)⁻¹ = 95 := by
    norm_num
  unfold coverageEstimate mathMin
  rw [h1, h2, h3]
  norm_num

/-- The test-writer success payload (timestamp omitted). -/
structure TestWriterRecord where
  tests_generated : Nat
  test_files : List String
  coverage_estimate : ℚ
deriving DecidableEq, Repr

/-- Responses of the test-writer handler. -/
inductive TestWriterResponse where
  | validationError : TestWriterResponse
  | pipelineError : String → TestWriterResponse
  | success : TestWriterRecord → TestWriterResponse
deriving DecidableEq, Repr

/-- Shallow embedding of the POST /test-writer handler; `r` is the
`Math.random()` sample of the coverage estimate. -/
def testWriter (deps : TestWriterDeps) (repository : Option String)
    (prNumber : Option Nat) (testFramework : Option String) (r : ℚ) :
    TestWriterResponse :=
  if truthyStr repository = false ∨ truthyNat prNumber = false then .validationError
  else
    match deps.fetchChangedFiles with
    | .error e => .pipelineError e
    | .ok files =>
      match testWriterGen deps testFramework files with
      | .error e => .pipelineError e
      | .ok gts =>
        match testWriterCreate deps gts with
        | .error e => .pipelineError e
        | .ok _ =>
          .success
            { tests_generated := gts.length
              test_files := gts.map (fun t => t.test_file)
              coverage_estimate := coverageEstimate r }

/-- Any success response of the test-writer carries exactly the simulated
coverage estimate built from the injected random sample. -/
theorem testWriter_success_coverage (deps : TestWriterDeps)
    (repository : Option String) (prNumber : Option Nat)
    (testFramework : Option String) (r : ℚ) (rec : TestWriterRecord)
    (hs : testWriter deps repository prNumber testFramework r = .success rec) :
    rec.coverage_estimate = coverageEstimate r := by
  unfold testWriter at hs
  split at hs
  · simp at hs
  · split at hs
    · simp at hs
    · split at hs
      · simp at hs
      · split at hs
        · simp at hs
        · injection hs with h
          rw [← h]

/-! ### Claim C9 -/

/-- Concrete dependencies for the C9 witness and counterexample: one changed
Python file whose test generation and creation succeed. -/
def c9Deps : TestWriterDeps :=
  { fetchChangedFiles := .ok [{ filename := "foo.py", content := some "def foo(): pass" }]
    generateTests := fun _ _ => .ok { content := "def test_foo(): pass", model := "m", provider := "p" }
    createTestFile := fun _ _ => .ok () }

/-- Claim C9 counterexample: at the random sample (2^53 - 1)/2^53 — the
largest binary64 double below 1, a value `Math.random()` can return — the
double-precision product and sum round `85 + r * 10` up to exactly 95, so the
successful test-writer response carries coverage_estimate = 95, violating the
claimed strict bound `< 95`. -/
theorem c9_counterexample :
    (0 : ℚ) ≤ 9007199254740991 / 9007199254740992 ∧
    (9007199254740991 / 9007199254740992 : ℚ) < 1 ∧
    testWriter c9Deps (some "octo/app") (some 9) none
        (9007199254740991 / 9007199254740992) =
      .success { tests_generated := 1, test_files := ["test_foo.py"],
                 coverage_estimate := 95 } ∧
    ¬ ((95 : ℚ) < 95) := by
  have hs : testWriter c9Deps (some "octo/app") (some 9) none
      (9007199254740991 / 9007199254740992) =
      .success { tests_generated := 1, test_files := ["test_foo.py"],
                 coverage_estimate := 95 } := by
    show TestWriterResponse.success
        { tests_generated := 1
          test_files := [generateTestFileName "foo.py" "pytest"]
          coverage_estimate := coverageEstimate (9007199254740991 / 9007199254740992) } =
      TestWriterResponse.success
        { tests_generated := 1, test_files := ["test_foo.py"], coverage_estimate := 95 }
    have hname : generateTestFileName "foo.py" "pytest" = "test_foo.py" := by decide
    rw [hname, coverageEstimate_top]
  exact ⟨by norm_num, by norm_num, hs, by norm_num⟩

/-- Claim C9 (amended): for every successful test-writer request and every
random sample in [0,1), the returned coverage estimate lies in the closed
interval [85, 95] — under binary64 arithmetic the upper endpoint 95 is
attained for the largest samples below 1, so the bound is `≤ 95`, not
`< 95`. -/
theorem c9_coverageRange (deps : TestWriterDeps) (repository : Option String)
    (prNumber : Option Nat) (testFramework : Option String) (r : ℚ)
    (rec : TestWriterRecord) (h0 : 0 ≤ r) (h1 : r < 1)
    (hs : testWriter deps repository prNumber testFramework r = .success rec) :
    85 ≤ rec.coverage_estimate ∧ rec.coverage_estimate ≤ 95 := by
  rw [testWriter_success_coverage deps repository prNumber testFramework r rec hs]
  exact coverageEstimate_bounds r h0

/-- Witness for C9 at the random sample 1/2: the concrete run succeeds with
coverage estimate 90 (5 and 90 are exact doubles, so no rounding moves them),
which lies in [85, 95]. -/
theorem c9_coverageRange_witness :
    (0 : ℚ) ≤ 1 / 2 ∧ (1 / 2 : ℚ) < 1 ∧
    testWriter c9Deps (some "octo/app") (some 9) none (1 / 2) =
      .success { tests_generated := 1, test_files := ["test_foo.py"],
                 coverage_estimate := 90 } ∧
    (85 ≤ (90 : ℚ) ∧ (90 : ℚ) ≤ 95) := by
  have hs : testWriter c9Deps (some "octo/app") (some 9) none (1 / 2) =
      .success { tests_generated := 1, test_files := ["test_foo.py"],
                 coverage_estimate := 90 } := by
    show TestWriterResponse.success
        { tests_generated := 1
          test_files := [generateTestFileName "foo.py" "pytest"]
          coverage_estimate := coverageEstimate (1 / 2) } =
      TestWriterResponse.success
        { tests_generated := 1, test_files := ["test_foo.py"], coverage_estimate := 90 }
    have hname : generateTestFileName "foo.py" "pytest" = "test_foo.py" := by decide
    rw [hname, coverageEstimate_half]
  refine ⟨by norm_num, by norm_num, hs, ?_⟩
  exact c9_coverageRange c9Deps (some "octo/app") (some 9) none (1 / 2)
    { tests_generated := 1, test_files := ["test_foo.py"], coverage_estimate := 90 }
    (by norm_num) (by norm_num) hs

/-! ## Build-predictor pipeline (router POST /build-predictor) -/

/-- `resource_requirements: { cpu, memory }`. -/
structure ResourceRequirements where
  cpu : String
  memory : String
deriving DecidableEq, Repr

/-- The structured build prediction expected from the LLM collaborator. -/
structure BuildPrediction where
  success_probability : ℚ
  estimated_duration : String
  potential_issues : List String
  resource_requirements : ResourceRequirements
  confidence_score : ℚ
deriving DecidableEq, Repr

/-- The fixed default substituted when `JSON.parse(prediction.content)`
throws. -/
def defaultBuildPrediction : BuildPrediction :=
  { success_probability := 75
    estimated_duration := "5-8 minutes"
    potential_issues := ["Dependency conflicts possible"]
    resource_requirements := { cpu := "medium", memory := "medium" }
    confidence_score := 7 / 10 }

/-- Collaborator calls of the build-predictor handler; `parsePrediction`
abstracts `JSON.parse` applied to the LLM content (`none` = it threw). -/
structure BuildPredictorDeps where
  getRecentChanges : Except String String
  getBuildHistory : Except String String
  analyzeDependencies : Except String String
  predictBuildOutcome : String → String → Option String → Except String AnalysisResult
  parsePrediction : String → Option BuildPrediction

/-- The build-predictor success payload (timestamp omitted). -/
structure BuildPredictorRecord where
  prediction : BuildPrediction
  model_used : String
  provider : String
  dependency_analysis : Option String
deriving DecidableEq, Repr

/-- Responses of the build-predictor handler (the error response carries the
fixed fallback `success_probability: 50` of the catch block). -/
inductive BuildPredictorResponse where
  | pipelineError : String → BuildPredictorResponse
  | success : BuildPredictorRecord → BuildPredictorResponse
deriving DecidableEq, Repr

/-- Shallow embedding of the POST /build-predictor handler. -/
def buildPredictor (deps : BuildPredictorDeps) (includeDependencies : Bool) :
    BuildPredictorResponse :=
  match deps.getRecentChanges with
  | .error e => .pipelineError e
  | .ok changes =>
    match deps.getBuildHistory with
    | .error e => .pipelineError e
    | .ok buildHistory =>
      match (if includeDependencies then Except.map some deps.analyzeDependencies
             else .ok none) with
      | .error e => .pipelineError e
      | .ok dependencyAnalysis =>
        match deps.predictBuildOutcome changes buildHistory dependencyAnalysis with
        | .error e => .pipelineError e
        | .ok prediction =>
          .success
            { prediction :=
                (deps.parsePrediction prediction.content).getD defaultBuildPrediction
              model_used := prediction.model
              provider := prediction.provider
              dependency_analysis := dependencyAnalysis }

/-! ### Claim C5 -/

/-- Claim C5: when the LLM prediction content is not parseable, the request
still succeeds and the response carries exactly the fixed default prediction:
success_probability 75, "5-8 minutes", one generic potential issue,
medium/medium resources, confidence 0.7. -/
theorem c5_buildDefault (deps : BuildPredictorDeps) (includeDependencies : Bool)
    (changes buildHistory : String) (dependencyAnalysis : Option String)
    (prediction : AnalysisResult)
    (hc : deps.getRecentChanges = .ok changes)
    (hh : deps.getBuildHistory = .ok buildHistory)
    (hdep : (if includeDependencies then Except.map some deps.analyzeDependencies
             else .ok none) = .ok dependencyAnalysis)
    (hp : deps.predictBuildOutcome changes buildHistory dependencyAnalysis =
      .ok prediction)
    (hparse : deps.parsePrediction prediction.content = none) :
    buildPredictor deps includeDependencies =
      .success
        { prediction := defaultBuildPrediction
          model_used := prediction.model
          provider := prediction.provider
          dependency_analysis := dependencyAnalysis } ∧
    defaultBuildPrediction.success_probability = 75 ∧
    defaultBuildPrediction.estimated_duration = "5-8 minutes" ∧
    defaultBuildPrediction.potential_issues = ["Dependency conflicts possible"] ∧
    defaultBuildPrediction.resource_requirements.cpu = "medium" ∧
    defaultBuildPrediction.resource_requirements.memory = "medium" ∧
    defaultBuildPrediction.confidence_score = 7 / 10 := by
  refine ⟨?_, rfl, rfl, rfl, rfl, rfl, rfl⟩
  simp [buildPredictor, hc, hh, hdep, hp, hparse]

/-- Concrete dependencies for the C5 witness: all fetches succeed and the LLM
answers free text that fails to parse. -/
def c5Deps : BuildPredictorDeps :=
  { getRecentChanges := .ok "3 commits"
    getBuildHistory := .ok "10 green builds"
    analyzeDependencies := .ok "lockfile unchanged"
    predictBuildOutcome := fun _ _ _ =>
      .ok { content := "the build will probably succeed", model := "m", provider := "p" }
    parsePrediction := fun _ => none }

/-- Witness for C5 at concrete dependencies (with dependency analysis). -/
theorem c5_buildDefault_witness :
    buildPredictor c5Deps true =
      .success
        { prediction := defaultBuildPrediction
          model_used := "m"
          provider := "p"
          dependency_analysis := some "lockfile unchanged" } :=
  (c5_buildDefault c5Deps true "3 commits" "10 green builds"
    (some "lockfile unchanged")
    { content := "the build will probably succeed", model := "m", provider := "p" }
    rfl rfl rfl rfl rfl).1

/-! ## Docker/K8s handler (router POST /docker-handler) -/

/-- Collaborator calls of the docker handler. -/
structure DockerDeps where
  buildDockerImage : String → String → Except String Unit
  generateK8sManifests : String → String → Except String String

/-- Trace entries of docker-handler collaborator invocations. -/
inductive DockerEffect where
  | buildImage : DockerEffect
  | generateManifests : DockerEffect
deriving DecidableEq, Repr

/-- Responses of the docker handler. -/
inductive DockerResponse where
  | unsupportedAction : List String → DockerResponse
  | pipelineError : String → DockerResponse
  | success : String → String → DockerResponse
deriving DecidableEq, Repr

/-- HTTP status of each docker-handler response shape. -/
def dockerHttpStatus : DockerResponse → Nat
  | .unsupportedAction _ => 400
  | .pipelineError _ => 500
  | .success _ _ => 200

/-- JS template interpolation of a possibly-undefined value. -/
def strOfOpt : Option String → String
  | some s => s
  | none => "undefined"

/-- `` `${repository}:${commit_sha ? commit_sha.substring(0, 8) : 'latest'}` ``. -/
def dockerImageTag (repository commitSha : Option String) : String :=
  strOfOpt repository ++ ":" ++
    (match commitSha with
     | some s => if s = "" then "latest" else strTake s 8
     | none => "latest")

/-- Shallow embedding of the POST /docker-handler handler, returning the
response together with the trace of collaborator invocations. -/
def dockerHandler (deps : DockerDeps) (repository commitSha action : Option String) :
    DockerResponse × List DockerEffect :=
  let imageTag := dockerImageTag repository commitSha
  if action = some "build_and_push" then
    match deps.buildDockerImage (strOfOpt repository) imageTag with
    | .error e => (.pipelineError e, [.buildImage])
    | .ok _ =>
      match deps.generateK8sManifests (strOfOpt repository) imageTag with
      | .error e => (.pipelineError e, [.buildImage, .generateManifests])
      | .ok manifests =>
        (.success imageTag manifests, [.buildImage, .generateManifests])
  else (.unsupportedAction ["build_and_push"], [])

/-! ### Claim C10 -/

/-- Claim C10: every docker-handler request whose action is not exactly
"build_and_push" (including an absent action) is answered with the HTTP 400
error listing supported_actions ["build_and_push"], and neither the image
build nor the manifest generation is invoked. -/
theorem c10_dockerUnsupported (deps : DockerDeps)
    (repository commitSha action : Option String)
    (h : action ≠ some "build_and_push") :
    dockerHandler deps repository commitSha action =
      (.unsupportedAction ["build_and_push"], []) ∧
    dockerHttpStatus (dockerHandler deps repository commitSha action).1 = 400 ∧
    DockerEffect.buildImage ∉ (dockerHandler deps repository commitSha action).2 ∧
    DockerEffect.generateManifests ∉ (dockerHandler deps repository commitSha action).2 := by
  have hmain : dockerHandler deps repository commitSha action =
      (.unsupportedAction ["build_and_push"], []) := by
    simp [dockerHandler, h]
  refine ⟨hmain, ?_, ?_, ?_⟩ <;> rw [hmain] <;> decide

/-- Witness for C10: an absent action field at concrete dependencies. -/
theorem c10_dockerUnsupported_witness :
    dockerHandler
      { buildDockerImage := fun _ _ => .ok ()
        generateK8sManifests := fun _ _ => .ok "manifests" }
      (some "octo/app") (some "deadbeefcafe") none =
      (.unsupportedAction ["build_and_push"], []) :=
  (c10_dockerUnsupported
    { buildDockerImage := fun _ _ => .ok ()
      generateK8sManifests := fun _ _ => .ok "manifests" }
    (some "octo/app") (some "deadbeefcafe") none (by decide)).1

/-! ## Monitor (router POST /monitor) -/

/-- The simulated metrics block; each field is a uniform sample scaled by the
source (`Math.random() * 100`, `* 100`, `* 1000`, `* 5`). -/
structure MonitorMetrics where
  cpu_usage : ℚ
  memory_usage : ℚ
  response_time : ℚ
  error_rate : ℚ
deriving DecidableEq, Repr

/-- The monitor response payload (timestamp and dashboard URL omitted). -/
structure MonitorResult where
  deployment_id : Option String
  environment : Option String
  status : String
  metrics : MonitorMetrics
  alerts : List String
  monitoring_duration : String
deriving DecidableEq, Repr

/-- Shallow embedding of the POST /monitor handler; `r1 r2 r3 r4` are the four
`Math.random()` samples in source order (cpu, memory, response time, error
rate).  The two alert pushes happen in source order: CPU first, then error
rate. -/
def monitor (deploymentId environment : Option String) (monitoringDuration : Nat)
    (r1 r2 r3 r4 : ℚ) : MonitorResult :=
  let metrics : MonitorMetrics :=
    { cpu_usage := r1 * 100
      memory_usage := r2 * 100
      response_time := r3 * 1000
      error_rate := r4 * 5 }
  { deployment_id := deploymentId
    environment := environment
    status := "healthy"
    metrics := metrics
    alerts :=
      (if metrics.cpu_usage > 80 then ["High CPU usage detected"] else []) ++
      (if metrics.error_rate > 3 then ["Elevated error rate detected"] else [])
    monitoring_duration := toString monitoringDuration ++ "s" }

/-! ### Claim C8 -/

/-- Claim C8: with the CPU sample drawn from [0,100) and the error-rate sample
from [0,5), the alerts list contains "High CPU usage detected" exactly when
cpu_usage > 80 and "Elevated error rate detected" exactly when error_rate > 3,
and is empty when neither threshold is exceeded. -/
theorem c8_monitorAlerts (deploymentId environment : Option String)
    (monitoringDuration : Nat) (r1 r2 r3 r4 : ℚ)
    (h1a : 0 ≤ r1) (h1b : r1 < 1) (h4a : 0 ≤ r4) (h4b : r4 < 1) :
    (0 ≤ (monitor deploymentId environment monitoringDuration r1 r2 r3 r4).metrics.cpu_usage ∧
      (monitor deploymentId environment monitoringDuration r1 r2 r3 r4).metrics.cpu_usage < 100) ∧
    (0 ≤ (monitor deploymentId environment monitoringDuration r1 r2 r3 r4).metrics.error_rate ∧
      (monitor deploymentId environment monitoringDuration r1 r2 r3 r4).metrics.error_rate < 5) ∧
    ("High CPU usage detected" ∈
        (monitor deploymentId environment monitoringDuration r1 r2 r3 r4).alerts ↔
      (monitor deploymentId environment monitoringDuration r1 r2 r3 r4).metrics.cpu_usage > 80) ∧
    ("Elevated error rate detected" ∈
        (monitor deploymentId environment monitoringDuration r1 r2 r3 r4).alerts ↔
      (monitor deploymentId environment monitoringDuration r1 r2 r3 r4).metrics.error_rate > 3) ∧
    (¬ (monitor deploymentId environment monitoringDuration r1 r2 r3 r4).metrics.cpu_usage > 80 →
      ¬ (monitor deploymentId environment monitoringDuration r1 r2 r3 r4).metrics.error_rate > 3 →
      (monitor deploymentId environment monitoringDuration r1 r2 r3 r4).alerts = []) := by
  have hdist : ("High CPU usage detected" : String) ≠ "Elevated error rate detected" := by
    decide
  refine ⟨⟨by simp [monitor]; linarith, by simp [monitor]; linarith⟩,
          ⟨by simp [monitor]; linarith, by simp [monitor]; linarith⟩, ?_, ?_, ?_⟩ <;>
    by_cases hc : (r1 * 100 : ℚ) > 80 <;> by_cases he : (r4 * 5 : ℚ) > 3 <;>
    simp [monitor, hc, he, hdist, Ne.symm hdist]

/-- Witness for C8: samples 9/10 (CPU 90, alert fires) and 1/10 (error rate
0.5, no alert). -/
theorem c8_monitorAlerts_witness :
    ("High CPU usage detected" ∈
        (monitor (some "deploy-1") (some "staging") 300 (9/10) (1/2) (1/2) (1/10)).alerts ↔
      (monitor (some "deploy-1") (some "staging") 300 (9/10) (1/2) (1/2) (1/10)).metrics.cpu_usage > 80) ∧
    ("Elevated error rate detected" ∈
        (monitor (some "deploy-1") (some "staging") 300 (9/10) (1/2) (1/2) (1/10)).alerts ↔
      (monitor (some "deploy-1") (some "staging") 300 (9/10) (1/2) (1/2) (1/10)).metrics.error_rate > 3) := by
  have h := c8_monitorAlerts (some "deploy-1") (some "staging") 300
    (9/10) (1/2) (1/2) (1/10)
    (by norm_num) (by norm_num) (by norm_num) (by norm_num)
  exact ⟨h.2.2.1, h.2.2.2.1⟩

/-! ## Vulnerability-scan pipeline (router POST /security/vulnerability-scan) -/

/-- An element of the parsed vulnerabilities list (spec data model:
description, severity, optional location). -/
structure Vulnerability where
  description : String
  severity : String
  location : Option String
deriving DecidableEq, Repr

/-- The shape extracted from a successful `JSON.parse` of the analysis content;
`none` fields model absent (or falsy) `vulnerabilities` / `risk_level` keys,
which the handler replaces via `|| []` and `|| 'low'`. -/
structure VulnParsed where
  vulnerabilities : Option (List Vulnerability)
  risk_level : Option String

/-- Collaborator calls of the vulnerability-scan handler; `parseAnalysis`
abstracts `JSON.parse` on the LLM content (`none` = it threw). -/
structure VulnScanDeps where
  fetchRepositoryContent : Except String String
  analyzeVulnerabilities : String → Except String AnalysisResult
  parseAnalysis : String → Option VulnParsed

/-- The vulnerability-scan success payload (timestamp omitted). -/
structure VulnScanRecord where
  repository : Option String
  branch : String
  scan_type : String
  risk_level : String
  vulnerabilities : List Vulnerability
  total_issues : Nat
  model_used : String
  provider : String
deriving DecidableEq, Repr

/-- Responses of the vulnerability-scan handler (the catch block answers 500
with risk_level "unknown"). -/
inductive VulnScanResponse where
  | pipelineError : String → VulnScanResponse
  | success : VulnScanRecord → VulnScanResponse
deriving DecidableEq, Repr

/-- The fallback risk classification applied to the lowercased raw content
when structured parsing fails. -/
def fallbackRiskLevel (content : String) : String :=
  if strContains (strToLower content) "critical" ||
      strContains (strToLower content) "high risk" then "high"
  else if strContains (strToLower content) "medium" ||
      strContains (strToLower content) "moderate" then "medium"
  else "low"

/-- Shallow embedding of the POST /security/vulnerability-scan handler.
`branch` and `scanType` carry the request fields with their destructuring
defaults "main" and "comprehensive". -/
def vulnerabilityScan (deps : VulnScanDeps) (repository : Option String)
    (branch scanType : String) : VulnScanResponse :=
  match deps.fetchRepositoryContent with
  | .error e => .pipelineError e
  | .ok repoContent =>
    match deps.analyzeVulnerabilities repoContent with
    | .error e => .pipelineError e
    | .ok analysisResult =>
      let parsed :=
        match deps.parseAnalysis analysisResult.content with
        | some analysis =>
          (analysis.vulnerabilities.getD [], orElseStr analysis.risk_level "low")
        | none => ([], fallbackRiskLevel analysisResult.content)
      .success
        { repository := repository
          branch := branch
          scan_type := scanType
          risk_level := parsed.2
          vulnerabilities := parsed.1
          total_issues := parsed.1.length
          model_used := analysisResult.model
          provider := analysisResult.provider }

/-! ### Claim C4 -/

/-- Claim C4: when the LLM content fails structured parsing, the returned
record's risk level is "high" if the lowercased content contains "critical" or
"high risk", else "medium" if it contains "medium" or "moderate", else "low",
and its vulnerabilities list is empty; and in every case (fallback or not)
total_issues equals the length of the returned vulnerabilities list. -/
theorem c4_vulnFallback (deps : VulnScanDeps) (repository : Option String)
    (branch scanType : String) (repoContent : String)
    (analysisResult : AnalysisResult)
    (hf : deps.fetchRepositoryContent = .ok repoContent)
    (ha : deps.analyzeVulnerabilities repoContent = .ok analysisResult) :
    (deps.parseAnalysis analysisResult.content = none →
      vulnerabilityScan deps repository branch scanType =
        .success
          { repository := repository
            branch := branch
            scan_type := scanType
            risk_level :=
              if strContains (strToLower analysisResult.content) "critical" ||
                  strContains (strToLower analysisResult.content) "high risk" then "high"
              else if strContains (strToLower analysisResult.content) "medium" ||
                  strContains (strToLower analysisResult.content) "moderate" then "medium"
              else "low"
            vulnerabilities := []
            total_issues := 0
            model_used := analysisResult.model
            provider := analysisResult.provider }) ∧
    (∀ rec : VulnScanRecord,
      vulnerabilityScan deps repository branch scanType = .success rec →
      rec.total_issues = rec.vulnerabilities.length) := by
  constructor
  · intro hparse
    simp [vulnerabilityScan, hf, ha, hparse, fallbackRiskLevel]
  · intro rec hrec
    rw [vulnerabilityScan, hf] at hrec
    simp only [ha] at hrec
    rcases hp : deps.parseAnalysis analysisResult.content with _ | parsed <;>
      rw [hp] at hrec <;> injection hrec with h <;> rw [← h]

/-- Concrete dependencies for the C4 witness: the collaborator answers the
free text "Critical issue found", which has no structured payload. -/
def c4Deps : VulnScanDeps :=
  { fetchRepositoryContent := .ok "repo sources"
    analyzeVulnerabilities := fun _ =>
      .ok { content := "Critical issue found", model := "m", provider := "p" }
    parseAnalysis := fun _ => none }

/-- Witness for C4: the text "Critical issue found" yields risk_level "high",
an empty vulnerabilities list and total_issues 0. -/
theorem c4_vulnFallback_witness :
    vulnerabilityScan c4Deps (some "octo/app") "main" "comprehensive" =
      .success
        { repository := some "octo/app"
          branch := "main"
          scan_type := "comprehensive"
          risk_level := "high"
          vulnerabilities := []
          total_issues := 0
          model_used := "m"
          provider := "p" } := by
  have h := (c4_vulnFallback c4Deps (some "octo/app") "main" "comprehensive"
    "repo sources" { content := "Critical issue found", model := "m", provider := "p" }
    rfl rfl).1 rfl
  rw [h]
  decide
